import Mathlib

/-!
Shallow embedding of `install_rail.py` (LSSTDESC/rail_setup).

The script locates or installs a conda-compatible environment manager, checks its
version, chooses a fresh environment name, creates the environment and installs
packages.  The definitions below translate the relevant functions of the source:
the registry `ENV_MANAGER_INFO`, the detection loop of `Installer.find_env_manager`,
`Installer.run_env_manager_cmd`, `Installer.check_env_manager_version`,
`Installer.choose_env_name`, `check_env_name`, `request_input` and the top-level
`run_cmd`.  External effects (the command search path, the filesystem, the
interactive input stream, the output of the version command) are passed in
explicitly as parameters.
-/

set_option maxRecDepth 10000

namespace RailInstall

/-- Character-level helper: Python `str.split(sep)` for a single-character
separator, operating on the character list of a string. -/
def splitOnChar (sep : Char) : List Char → List (List Char)
  | [] => [[]]
  | c :: t =>
    if c == sep then [] :: splitOnChar sep t
    else
      match splitOnChar sep t with
      | [] => [[c]]
      | r :: rs => (c :: r) :: rs

/-- Value of a decimal digit character, as used to model Python `int` on version
components. -/
def decimalDigit (c : Char) : Nat := c.toNat - 48

/-- Accumulator loop for reading a decimal numeral. -/
def pyNatAux (acc : Nat) : List Char → Nat
  | [] => acc
  | c :: t => pyNatAux (acc * 10 + decimalDigit c) t

/-- Python `int(s)` on a nonnegative decimal string.  Version components in the
source are always nonnegative decimals; malformed components, on which Python
would raise `ValueError`, are outside the scope of the model. -/
def pyNat (cs : List Char) : Nat := pyNatAux 0 cs

/-- Python `str.strip()`: drop whitespace from both ends. -/
def pyStrip (s : String) : String :=
  String.mk (((s.data.dropWhile Char.isWhitespace).reverse.dropWhile Char.isWhitespace).reverse)

/-- Python `output[output.rindex(" ") + 1 :]`: the segment after the last space.
When no space occurs the model returns the whole string, where Python would raise
`ValueError` instead; the version outputs handled by the source always contain a
space in this case. -/
def afterLastSpace (s : String) : String :=
  String.mk ((splitOnChar ' ' s.data).getLastD [])

/-- Tests whether the first list is a leading segment of the second (substring
search helper). -/
def charsLeading : List Char → List Char → Bool
  | [], _ => true
  | _ :: _, [] => false
  | a :: as, b :: bs => a == b && charsLeading as bs

/-- Tests whether `pat` occurs as a contiguous segment of the second list. -/
def charsContain (pat : List Char) : List Char → Bool
  | [] => charsLeading pat []
  | c :: t => charsLeading pat (c :: t) || charsContain pat t

/-- Substring containment on strings, used to state facts about error messages. -/
def strContains (s pat : String) : Bool := charsContain pat.data s.data

/-- Message template `ERROR_ENV_MANAGER_ALREADY_INSTALLED` of the source. -/
def ERROR_ENV_MANAGER_ALREADY_INSTALLED (to_install already_installed : String) : String :=
  "\nRequested installation of `" ++ to_install ++ "` but `" ++ already_installed ++
    "` was already found on\nthe system.\n"

/-- Message template `ERROR_ENV_MANAGER_OUT_OF_DATE` of the source. -/
def ERROR_ENV_MANAGER_OUT_OF_DATE (env_manager present required : String) : String :=
  "\nThe installed version of `" ++ env_manager ++ "` (" ++ present ++
    ") is out of date, at least " ++ required ++
    " is\nrequired. Please manually upgrade or remove it.\n"

/-- Message `ERROR_SPECS_MESSAGE` of the source: the minimum machine-resource
hint appended to most command failures. -/
def ERROR_SPECS_MESSAGE : String :=
  "\nIf this error occurred while creating or installing into a Python virtual environment,\n" ++
    "and the error message is vague, this may be related to hardware specifications. Please\n" ++
    "visit the RAIL documentation on minimum requirements.\n\n" ++
    "Working with the RAIL virtual environment requires at least 4GiB of RAM, and 5GiB of free storage.\n"

/-- Message template `ERROR_ENV_MANAGER_EXISTS_WITHOUT_PATH` of the source (the
missing closing backtick after the manager name reproduces the source literal). -/
def ERROR_ENV_MANAGER_EXISTS_WITHOUT_PATH (env_manager activation_script_path : String) : String :=
  "\n\n`" ++ env_manager ++ " is not present in $PATH, but an activation script exists at\n" ++
    activation_script_path ++ ". Follow the " ++ env_manager ++
    " instructions for initializing your\nshell, then restart your terminal session.\n"

/-- Message template `ERROR_NONINTERACTIVE_INPUT` of the source. -/
def ERROR_NONINTERACTIVE_INPUT (prompt : String) : String :=
  "\nUser input needed, but output device is not a tty. To run the RAIL installation script\n" ++
    "in an unattended mode, ensure all choices are given as command-line options.\n\nInput needed: " ++
    prompt ++ "\n"

/-- Normalization performed by `RAILInstallationError.__init__`: ensure the
message starts and ends with a newline.  The raised error's final text is this
normalized message. -/
def railErrorMessage (message : String) : String :=
  let message :=
    match message.data with
    | '\n' :: _ => message
    | _ => "\n" ++ message
  match message.data.getLast? with
  | some '\n' => message
  | _ => message ++ "\n"

/-- Environment abstraction for the external state the script queries: `which`
models `shutil.which(exe) is not None` (the executable resolves on the command
search path) and `scriptExists` models `Path.exists()` for a filesystem path. -/
structure SysEnv where
  which : String → Bool
  scriptExists : String → Bool

/-- Embeds the dataclass `EnvironmentManager` of the source.  Paths are modeled
as plain strings; `Path.expanduser` is modeled as the identity (the model has no
home directory), so `directory` keeps its literal `~/...` form. -/
structure EnvironmentManager where
  name : String
  installable : Bool
  executable : String
  directory : Option String
  installer_link : Option String
  installer_options : List String
  activation_script : Option String
  deriving DecidableEq

/-- Embeds `EnvironmentManager.__post_init__`: the activation script is derived
from the directory as `<directory>/bin/activate` and is `none` iff the directory
is `none`; an empty executable defaults to the manager name. -/
def mkEnvironmentManager (name : String) (installable : Bool) (executable : String)
    (directory : Option String) (installer_link : Option String)
    (installer_options : List String) : EnvironmentManager :=
  { name := name,
    installable := installable,
    executable := if executable == "" then name else executable,
    directory := directory,
    installer_link := installer_link,
    installer_options := installer_options,
    activation_script := directory.map (fun d => d ++ "/bin/activate") }

/-- First entry of `ENV_MANAGER_INFO`. -/
def micromamba_manager : EnvironmentManager :=
  mkEnvironmentManager "micromamba" false "" none none []

/-- Second entry of `ENV_MANAGER_INFO`. -/
def mamba_manager : EnvironmentManager :=
  mkEnvironmentManager "mamba" true "" (some "~/miniforge3")
    (some "https://github.com/conda-forge/miniforge/releases/latest/download/Miniforge3-{kernel}-{architecture}.sh")
    ["-b", "-u", "-p"]

/-- Third entry of `ENV_MANAGER_INFO`. -/
def miniconda_manager : EnvironmentManager :=
  mkEnvironmentManager "miniconda" true "conda" (some "~/miniconda3")
    (some "https://repo.anaconda.com/miniconda/Miniconda3-latest-{kernel}-{architecture}.sh")
    ["-b", "-u", "-c", "-p"]

/-- Fourth entry of `ENV_MANAGER_INFO`. -/
def anaconda_manager : EnvironmentManager :=
  mkEnvironmentManager "anaconda" false "conda" (some "~/anaconda3") none []

/-- The fixed, ordered registry `ENV_MANAGER_INFO` of the source. -/
def ENV_MANAGER_INFO : List EnvironmentManager :=
  [micromamba_manager, mamba_manager, miniconda_manager, anaconda_manager]

/-- A variant is detected when its executable resolves on the search path or its
activation script exists on disk — the disjunction tested by the loop body of
`Installer.find_env_manager`. -/
def detectable (env : SysEnv) (m : EnvironmentManager) : Bool :=
  env.which m.executable ||
    (match m.activation_script with
     | none => false
     | some p => env.scriptExists p)

/-- The detection loop of `Installer.find_env_manager` over a registry list: the
first variant that is in the search path or whose activation script exists is
selected, paired with `env_manager_preinitialized` (true iff it was found on the
search path). -/
def findDetected (env : SysEnv) : List EnvironmentManager → Option (EnvironmentManager × Bool)
  | [] => none
  | env_manager :: rest =>
    let in_path := env.which env_manager.executable
    let activation_script_exists :=
      match env_manager.activation_script with
      | none => false
      | some p => env.scriptExists p
    if in_path || activation_script_exists then some (env_manager, in_path)
    else findDetected env rest

/-- The detection pass of `Installer.find_env_manager` over the actual registry. -/
def detectEnvManager (env : SysEnv) : Option (EnvironmentManager × Bool) :=
  findDetected env ENV_MANAGER_INFO

/-- Python `str(x)` on an optional path, as used when formatting the
activation-script remediation message. -/
def optionPathString (p : Option String) : String :=
  match p with
  | some s => s
  | none => "None"

/-- The detection-and-conflict phase of `Installer.find_env_manager` (source
lines 399-428): run the detection loop, then fail with
`ERROR_ENV_MANAGER_ALREADY_INSTALLED` when a specific installation was requested
but a manager was already detected, appending the activation-script remediation
when the detected manager was not preinitialized.  The later phases of
`find_env_manager` (interactive selection, installation, setup, version check)
are modeled by separate definitions below. -/
def find_env_manager_check (env : SysEnv) (name_to_install : Option String) :
    Except String (Option (EnvironmentManager × Bool)) :=
  match detectEnvManager env, name_to_install with
  | some (m, pre), some req =>
    let error_message := ERROR_ENV_MANAGER_ALREADY_INSTALLED req m.executable
    let error_message :=
      if !pre then
        error_message ++
          ERROR_ENV_MANAGER_EXISTS_WITHOUT_PATH m.executable (optionPathString m.activation_script)
      else error_message
    Except.error (railErrorMessage error_message)
  | d, _ => Except.ok d

/-- Embeds `Installer.run_env_manager_cmd`: returns the shell command actually
executed (`Except.ok`) or the fatal configuration error (`Except.error`).  When
the activation script is undefined and the executable resolves, the command runs
unmodified; when the activation script is defined, the command is prefixed by
sourcing the script in the same subshell; otherwise the run fails. -/
def run_env_manager_cmd (env : SysEnv) (m : EnvironmentManager) (cmd : String) :
    Except String String :=
  match m.activation_script with
  | none =>
    if env.which m.executable then Except.ok cmd
    else
      Except.error (railErrorMessage
        "Something went wrong finding/activating the Python virtual environment manager.")
  | some script => Except.ok (". " ++ script ++ " && " ++ cmd)

/-- Python tuple comparison `<` on the integer tuples produced from version
strings: componentwise numeric comparison, a strict prefix comparing less than
the longer tuple. -/
def pyTupleLt : List Nat → List Nat → Bool
  | [], [] => false
  | [], _ :: _ => true
  | _ :: _, [] => false
  | a :: as, b :: bs =>
    if a < b then true
    else if b < a then false
    else pyTupleLt as bs

/-- Embeds `version_string_to_tuple` of `Installer.check_env_manager_version`:
split on dots and read each component as an integer. -/
def version_string_to_tuple (vstring : String) : List Nat :=
  (splitOnChar '.' vstring.data).map pyNat

/-- The comparison-and-raise step of `Installer.check_env_manager_version`:
fail with `ERROR_ENV_MANAGER_OUT_OF_DATE` (naming present and required versions)
exactly when the present tuple is strictly less than the required tuple. -/
def check_version_core (executable present_version_string required_version_string : String) :
    Except String Unit :=
  if pyTupleLt (version_string_to_tuple present_version_string)
      (version_string_to_tuple required_version_string) then
    Except.error (railErrorMessage
      (ERROR_ENV_MANAGER_OUT_OF_DATE executable present_version_string required_version_string))
  else Except.ok ()

/-- Per-executable version parameters of `Installer.check_env_manager_version`:
the rule extracting the version token from the command output, and the required
minimum version.  `none` models the unreachable fall-through for executables not
in the registry (unbound-variable crash in Python). -/
def version_params (executable : String) : Option ((String → String) × String) :=
  if executable == "conda" then some (afterLastSpace, "23.5.0")
  else if executable == "mamba" then some (afterLastSpace, "23.5.0")
  else if executable == "micromamba" then some (fun output => output, "1.5.8")
  else none

/-- Embeds `Installer.check_env_manager_version`: `version_output` is the stdout
of the variant's version command.  When `dry_run` holds and the manager was not
preinitialized (`fake_version` in the source), the check returns without
inspecting the output; otherwise the version token is extracted from the
stripped output and compared. -/
def check_env_manager_version (executable : String) (dry_run preinitialized : Bool)
    (version_output : String) : Option (Except String Unit) :=
  let fake_version := dry_run && !preinitialized
  match version_params executable with
  | none => none
  | some (output_to_version, required_version_string) =>
    if fake_version then some (Except.ok ())
    else
      some (check_version_core executable
        (output_to_version (pyStrip version_output)) required_version_string)

/-- The read-and-validate loop of `request_input`, driven by an explicit list of
input lines.  `none` means every supplied line was rejected and the loop is
still re-prompting (the source loops indefinitely). -/
def request_input_loop (inputs : List String) (options : List String) (allow_any : Bool)
    (validator : Option (String → Bool)) : Option String :=
  match inputs with
  | [] => none
  | result :: rest =>
    let default_validation := (allow_any && result != "") || (!allow_any && options.contains result)
    let extra_validation :=
      match validator with
      | none => true
      | some v => v result
    if default_validation && extra_validation then some result
    else request_input_loop rest options allow_any validator

/-- Embeds `request_input`: fail with `ERROR_NONINTERACTIVE_INPUT` when the
output device is not a tty, otherwise run the validation loop on the supplied
input lines. -/
def request_input (isatty : Bool) (inputs : List String) (prompt : String)
    (options : List String) (allow_any : Bool) (validator : Option (String → Bool)) :
    Except String (Option String) :=
  if !isatty then Except.error (railErrorMessage (ERROR_NONINTERACTIVE_INPUT prompt))
  else Except.ok (request_input_loop inputs options allow_any validator)

/-- Embeds `check_env_name`: a candidate name is rejected exactly when it is
already among the existing environment names (the source also prints
`MESSAGE_ENV_EXISTS`, a pure output effect not modeled). -/
def check_env_name (name : String) (existing_names : List String) : Bool :=
  if existing_names.contains name then false
  else true

/-- Embeds `Installer.choose_env_name`.  `existing_names` is the list of
pre-existing environment names observed at resolution time (computed in the
source from `env list --json` minus the base prefix when the manager is
preinitialized, and empty otherwise); `env_name` is the CLI-supplied name if
any; `inputs` drives the interactive prompt.  `none` means the interactive
prompt is still re-asking. -/
def choose_env_name (existing_names : List String) (env_name : Option String)
    (inputs : List String) : Option (Except String String) :=
  match env_name with
  | some name =>
    if check_env_name name existing_names then some (Except.ok name)
    else
      some (Except.error (railErrorMessage
        ("Supplied environment name " ++ name ++ " already exists")))
  | none =>
    match request_input_loop inputs [] true
        (some (fun name => check_env_name name existing_names)) with
    | some name => some (Except.ok name)
    | none => none

/-- The environment-creation command built by `Installer.create_env` for a chosen
name, paired with the `as_comment` flag passed to `run_cmd`. -/
def create_env_cmd (executable env_name lockfile : String)
    (dry_run preinitialized verbose : Bool) : String × Bool :=
  let cmd := executable ++ " env create --name " ++ env_name ++ " --file " ++ lockfile ++ " --yes"
  let pair :=
    if dry_run then
      if preinitialized then (cmd ++ " --dry-run", false) else (cmd, true)
    else (cmd, false)
  if !verbose then (pair.1 ++ " --quiet", pair.2) else pair

/-- The name-then-create fragment of `Installer.run`: `choose_env_name` runs
strictly before `create_env`, so the returned list of creation commands is empty
unless a name was successfully chosen. -/
def name_then_create (existing_names : List String) (env_name : Option String)
    (inputs : List String) (executable lockfile : String)
    (dry_run preinitialized verbose : Bool) : List (String × Bool) × Option String :=
  match choose_env_name existing_names env_name inputs with
  | some (Except.ok name) =>
    ([create_env_cmd executable name lockfile dry_run preinitialized verbose], some name)
  | _ => ([], none)

/-- Embeds `subprocess.CompletedProcess` as consumed by `run_cmd`: the exit code
and the optionally captured output streams. -/
structure CompletedProcess where
  returncode : Int
  stdout : Option String
  stderr : Option String
  deriving DecidableEq

/-- The error-message construction of the top-level `run_cmd` for a non-zero
exit code: start from `"CLI command failed"`; when at least one stream was
captured, append the stripped stdout and stderr with placeholders for a stream
that was not captured; append the machine-resource hint unless the exit code is
127. -/
def build_cmd_error_message (output : CompletedProcess) : String :=
  let error_message := "CLI command failed"
  let error_message :=
    if output.stdout.isSome || output.stderr.isSome then
      let stdout :=
        match output.stdout with
        | some s => pyStrip s
        | none => "No output from command"
      let stderr :=
        match output.stderr with
        | some s => pyStrip s
        | none => "No error from command"
      error_message ++ ": " ++ stdout ++ "\n" ++ stderr
    else error_message
  if output.returncode != 127 then error_message ++ "\n" ++ ERROR_SPECS_MESSAGE
  else error_message

/-- Embeds the failure classification of the top-level `run_cmd`: a non-zero
exit code raises `RAILInstallationError` carrying the constructed message
(normalized by the error class) and the exit code; a zero exit code returns the
process result. -/
def runCmd (output : CompletedProcess) : Except (String × Int) CompletedProcess :=
  if output.returncode != 0 then
    Except.error (railErrorMessage (build_cmd_error_message output), output.returncode)
  else Except.ok output

/-- The suffix appended to a failure message by the exit-code-127 rule of
`run_cmd`, in closed form. -/
def specs_hint_suffix (returncode : Int) : String :=
  if returncode != 127 then "\n" ++ ERROR_SPECS_MESSAGE else ""

/-- Concrete machine state used in witnesses: only `conda` resolves on the
command search path and no activation script exists on disk. -/
def envCondaOnPath : SysEnv :=
  { which := fun exe => exe == "conda", scriptExists := fun _ => false }

/-- Concrete machine state used in witnesses: nothing resolves on the search
path and no activation script exists on disk. -/
def envBare : SysEnv :=
  { which := fun _ => false, scriptExists := fun _ => false }

/-! ## Helper lemmas -/

/-- The detection loop over any registry list returns the first variant
satisfying `detectable`, paired with its search-path status. -/
theorem findDetected_eq_find (env : SysEnv) (l : List EnvironmentManager) :
    findDetected env l
      = (l.find? (fun m => detectable env m)).map (fun m => (m, env.which m.executable)) := by
  induction l with
  | nil => rfl
  | cons m t ih =>
    have hd : (env.which m.executable ||
        (match m.activation_script with
         | none => false
         | some p => env.scriptExists p)) = detectable env m := rfl
    cases h : detectable env m with
    | true =>
      have hf : List.find? (fun m => detectable env m) (m :: t) = some m := by
        rw [List.find?_cons_of_pos]
        exact h
      simp [findDetected, hd, h, hf]
    | false =>
      have hf : List.find? (fun m => detectable env m) (m :: t)
          = List.find? (fun m => detectable env m) t := by
        rw [List.find?_cons_of_neg]
        simp [h]
      simp [findDetected, hd, h, hf, ih]

/-- Soundness of the validation loop: an accepted value satisfies the default
validation and the extra validator. -/
theorem request_input_loop_sound (inputs options : List String) (allow_any : Bool)
    (validator : Option (String → Bool)) (result : String)
    (h : request_input_loop inputs options allow_any validator = some result) :
    ((allow_any && result != "") || (!allow_any && options.contains result)) = true ∧
      (∀ f, validator = some f → f result = true) := by
  induction inputs with
  | nil => simp [request_input_loop] at h
  | cons line rest ih =>
    simp only [request_input_loop] at h
    split at h
    case isTrue hacc =>
      obtain ⟨hdefault, hextra⟩ := Bool.and_eq_true .. ▸ hacc
      cases h
      refine ⟨hdefault, ?_⟩
      intro f hf
      rw [hf] at hextra
      exact hextra
    case isFalse => exact ih h

/-- Python tuple comparison is irreflexive. -/
theorem pyTupleLt_irrefl : ∀ l : List Nat, pyTupleLt l l = false
  | [] => rfl
  | _ :: as => by simp [pyTupleLt, Nat.lt_irrefl, pyTupleLt_irrefl as]

/-- A strict componentwise prefix compares strictly less under Python tuple
comparison. -/
theorem pyTupleLt_self_append :
    ∀ (as rest : List Nat), rest ≠ [] → pyTupleLt as (as ++ rest) = true
  | [], [], h => absurd rfl h
  | [], _ :: _, _ => rfl
  | a :: as, rest, h => by
    simp only [List.cons_append, pyTupleLt, Nat.lt_irrefl, if_false]
    exact pyTupleLt_self_append as rest h

/-- `check_env_name` accepts exactly the names that do not collide with an
existing environment name. -/
theorem check_env_name_true_iff (name : String) (existing_names : List String) :
    check_env_name name existing_names = true ↔ name ∉ existing_names := by
  by_cases h : name ∈ existing_names <;>
    simp [check_env_name, List.contains, List.elem_iff, h]

/-- With an empty option set and `allow_any = false`, no input line can pass
the default validation, so the loop rejects every line. -/
theorem request_input_loop_nil_options (inputs : List String)
    (validator : Option (String → Bool)) :
    request_input_loop inputs [] false validator = none := by
  induction inputs with
  | nil => rfl
  | cons line rest ih => simp [request_input_loop, List.contains, ih]

/-! ## Claim theorems -/

/-- Claim C1: for every configuration of simultaneously detectable registered
manager variants, the resolver selects the variant appearing first in the fixed
declared order of `ENV_MANAGER_INFO` (the result is exactly the first registry
entry satisfying `detectable`), recording `preinitialized = true` iff the
executable resolves on the command search path; the selection is a function of
detectability and search-path status alone, so it depends on no other
ordering. -/
theorem detect_env_manager_first_declared (env : SysEnv) :
    detectEnvManager env
      = (ENV_MANAGER_INFO.find? (fun m => detectable env m)).map
          (fun m => (m, env.which m.executable)) :=
  findDetected_eq_find env ENV_MANAGER_INFO

/-- Claim C2: the version check decomposes dot-separated version strings into
integer tuples and compares them componentwise numerically; it raises the
out-of-date error, naming the present and required versions, exactly when the
present tuple is strictly less than the required tuple; equal versions pass;
and `"2.10.0"` compares greater than `"2.9.9"` numerically. -/
theorem check_version_fieldwise_numeric :
    (∀ executable present required : String,
        check_version_core executable present required
            = Except.error (railErrorMessage
                (ERROR_ENV_MANAGER_OUT_OF_DATE executable present required)) ↔
          pyTupleLt (version_string_to_tuple present) (version_string_to_tuple required) = true) ∧
    (∀ executable v : String, check_version_core executable v v = Except.ok ()) ∧
    (version_string_to_tuple "2.10.0" = [2, 10, 0] ∧
      version_string_to_tuple "2.9.9" = [2, 9, 9] ∧
      pyTupleLt (version_string_to_tuple "2.9.9") (version_string_to_tuple "2.10.0") = true ∧
      pyTupleLt (version_string_to_tuple "2.10.0") (version_string_to_tuple "2.9.9") = false) := by
  refine ⟨?_, ?_, by decide, by decide, by decide, by decide⟩
  · intro executable present required
    cases h : pyTupleLt (version_string_to_tuple present) (version_string_to_tuple required) <;>
      simp [check_version_core, h]
  · intro executable v
    simp [check_version_core, pyTupleLt_irrefl]

/-- Claim C2 witness: a present version `"23.4.0"` against required `"23.5.0"`
raises the out-of-date error naming both versions. -/
theorem check_version_fieldwise_numeric_witness :
    check_version_core "conda" "23.4.0" "23.5.0"
      = Except.error (railErrorMessage
          (ERROR_ENV_MANAGER_OUT_OF_DATE "conda" "23.4.0" "23.5.0")) :=
  (check_version_fieldwise_numeric.1 "conda" "23.4.0" "23.5.0").mpr (by decide)

/-- Claim C9: when the present version tuple is a strict componentwise prefix of
the required tuple (fewer components, all shared components equal), the check
classifies the present version as older and raises the out-of-date error. -/
theorem version_prefix_out_of_date (executable present required : String) (rest : List Nat)
    (hrest : rest ≠ [])
    (hpre : version_string_to_tuple required = version_string_to_tuple present ++ rest) :
    check_version_core executable present required
      = Except.error (railErrorMessage
          (ERROR_ENV_MANAGER_OUT_OF_DATE executable present required)) := by
  simp [check_version_core, hpre,
    pyTupleLt_self_append (version_string_to_tuple present) rest hrest]

/-- Claim C9 witness: present `"23.5"` against required `"23.5.0"` raises the
out-of-date error. -/
theorem version_prefix_out_of_date_witness :
    check_version_core "conda" "23.5" "23.5.0"
      = Except.error (railErrorMessage
          (ERROR_ENV_MANAGER_OUT_OF_DATE "conda" "23.5" "23.5.0")) :=
  version_prefix_out_of_date "conda" "23.5" "23.5.0" [0] (by decide) (by decide)

/-- Claim C8: in dry-run mode with the manager not preinitialized (the
simulation case in which no manager was actually installed), the version check
returns success without comparing versions, whatever the command output, so it
can never raise the out-of-date error; in every other case the real version
command's output is stripped, the version token extracted, and the comparison
performed. -/
theorem dry_run_version_check_skip (executable : String) (dry_run preinitialized : Bool)
    (version_output : String) (output_to_version : String → String)
    (required_version_string : String)
    (hparams : version_params executable = some (output_to_version, required_version_string)) :
    (dry_run = true ∧ preinitialized = false →
      check_env_manager_version executable dry_run preinitialized version_output
        = some (Except.ok ())) ∧
    (¬(dry_run = true ∧ preinitialized = false) →
      check_env_manager_version executable dry_run preinitialized version_output
        = some (check_version_core executable
            (output_to_version (pyStrip version_output)) required_version_string)) := by
  constructor
  · rintro ⟨hd, hp⟩
    subst hd; subst hp
    simp [check_env_manager_version, hparams]
  · intro hn
    have hfake : (dry_run && !preinitialized) = false := by
      cases dry_run <;> cases preinitialized <;> simp_all
    simp [check_env_manager_version, hparams, hfake]

/-- Claim C8 witness: in dry-run mode with no preinitialized manager, the check
passes even though the reported version is far below the minimum. -/
theorem dry_run_version_check_skip_witness :
    check_env_manager_version "conda" true false "conda 0.0.1" = some (Except.ok ()) :=
  (dry_run_version_check_skip "conda" true false "conda 0.0.1" afterLastSpace "23.5.0"
    rfl).1 ⟨rfl, rfl⟩

/-- Claim C3: whenever the caller requested installation of a specific variant
and the detection pass has already selected some variant, resolution fails with
the already-installed error formatted from the requested name and the detected
variant's executable, and the activation-script remediation text is appended
exactly when the detected variant was found only via its activation script
(`preinitialized = false`). -/
theorem already_installed_error_spec (env : SysEnv) (req : String)
    (m : EnvironmentManager) (pre : Bool)
    (h : detectEnvManager env = some (m, pre)) :
    find_env_manager_check env (some req)
      = Except.error (railErrorMessage
          (if pre then ERROR_ENV_MANAGER_ALREADY_INSTALLED req m.executable
           else
             ERROR_ENV_MANAGER_ALREADY_INSTALLED req m.executable ++
               ERROR_ENV_MANAGER_EXISTS_WITHOUT_PATH m.executable
                 (optionPathString m.activation_script))) := by
  cases pre <;> simp [find_env_manager_check, h]

/-- Claim C3 witness: `conda` already on the search path and `mamba` requested
for installation fails with the already-installed error without the
remediation text. -/
theorem already_installed_error_spec_witness :
    find_env_manager_check envCondaOnPath (some "mamba")
      = Except.error (railErrorMessage
          (ERROR_ENV_MANAGER_ALREADY_INSTALLED "mamba" miniconda_manager.executable)) :=
  already_installed_error_spec envCondaOnPath "mamba" miniconda_manager true (by decide)

/-- Claim C4: the activation-aware executor satisfies the three-way case split:
no activation script and resolvable executable runs the command unmodified; a
defined activation script prefixes the command with sourcing the script in the
same subshell; no activation script and unresolvable executable fails with the
fatal configuration error without running anything. -/
theorem run_env_manager_cmd_cases (env : SysEnv) (m : EnvironmentManager) (cmd : String) :
    (m.activation_script = none → env.which m.executable = true →
      run_env_manager_cmd env m cmd = Except.ok cmd) ∧
    (∀ script, m.activation_script = some script →
      run_env_manager_cmd env m cmd = Except.ok (". " ++ script ++ " && " ++ cmd)) ∧
    (m.activation_script = none → env.which m.executable = false →
      run_env_manager_cmd env m cmd
        = Except.error (railErrorMessage
            "Something went wrong finding/activating the Python virtual environment manager.")) := by
  refine ⟨fun h1 h2 => ?_, fun script h1 => ?_, fun h1 h2 => ?_⟩
  · simp [run_env_manager_cmd, h1, h2]
  · simp [run_env_manager_cmd, h1]
  · simp [run_env_manager_cmd, h1, h2]

/-- Claim C4 witness: with `micromamba` (no activation script) absent from the
search path, execution fails with the fatal configuration error. -/
theorem run_env_manager_cmd_cases_witness :
    run_env_manager_cmd envBare micromamba_manager "conda env list --json"
      = Except.error (railErrorMessage
          "Something went wrong finding/activating the Python virtual environment manager.") :=
  (run_env_manager_cmd_cases envBare micromamba_manager "conda env list --json").2.2 rfl rfl

/-- Claim C5: the chosen environment name never collides with a pre-existing
name observed at resolution time: any successfully chosen name is outside the
existing-name list; a CLI-supplied colliding name fails with the name-conflict
error and no environment-creation command runs; a CLI-supplied fresh name is
accepted; an interactive colliding line is rejected and the prompt loop moves
on to the next line; and `check_env_name` accepts exactly the names outside the
existing-name list. -/
theorem env_name_no_collision (existing_names : List String) (cli : Option String)
    (inputs : List String) (executable lockfile : String)
    (dry_run preinitialized verbose : Bool) :
    (∀ name, choose_env_name existing_names cli inputs = some (Except.ok name) →
      name ∉ existing_names) ∧
    (∀ name, cli = some name → name ∈ existing_names →
      choose_env_name existing_names cli inputs
          = some (Except.error (railErrorMessage
              ("Supplied environment name " ++ name ++ " already exists"))) ∧
        (name_then_create existing_names cli inputs executable lockfile
            dry_run preinitialized verbose).1 = []) ∧
    (∀ name, cli = some name → name ∉ existing_names →
      choose_env_name existing_names cli inputs = some (Except.ok name)) ∧
    (∀ name rest, name ∈ existing_names →
      choose_env_name existing_names none (name :: rest)
        = choose_env_name existing_names none rest) ∧
    (∀ name, check_env_name name existing_names = true ↔ name ∉ existing_names) := by
  refine ⟨?_, ?_, ?_, ?_, fun name => check_env_name_true_iff name existing_names⟩
  · intro name h
    cases cli with
    | some n =>
      simp only [choose_env_name] at h
      by_cases hc : check_env_name n existing_names = true
      · simp only [hc, if_true, Option.some.injEq, Except.ok.injEq] at h
        subst h
        exact (check_env_name_true_iff n existing_names).mp hc
      · simp [hc] at h
    | none =>
      simp only [choose_env_name] at h
      revert h
      cases hloop : request_input_loop inputs [] true
          (some (fun nm => check_env_name nm existing_names)) with
      | none => intro h; simp at h
      | some n =>
        intro h
        obtain rfl : n = name := by simpa using h
        have hval := (request_input_loop_sound inputs [] true
          (some (fun nm => check_env_name nm existing_names)) n hloop).2
        exact (check_env_name_true_iff n existing_names).mp
          (hval (fun nm => check_env_name nm existing_names) rfl)
  · rintro name rfl hmem
    have hc : check_env_name name existing_names = false := by
      cases hcv : check_env_name name existing_names with
      | true => exact absurd ((check_env_name_true_iff name existing_names).mp hcv) (by simp [hmem])
      | false => rfl
    constructor
    · simp [choose_env_name, hc]
    · simp [name_then_create, choose_env_name, hc]
  · rintro name rfl hnot
    have hc : check_env_name name existing_names = true :=
      (check_env_name_true_iff name existing_names).mpr hnot
    simp [choose_env_name, hc]
  · intro name rest hmem
    have hc : check_env_name name existing_names = false := by
      cases hcv : check_env_name name existing_names with
      | true => exact absurd ((check_env_name_true_iff name existing_names).mp hcv) (by simp [hmem])
      | false => rfl
    simp [choose_env_name, request_input_loop, hc]

/-- Claim C5 witness: with existing environments `["base", "analysis"]` and CLI
name `analysis`, name selection fails with the conflict error and no
environment-creation command is produced. -/
theorem env_name_no_collision_witness :
    choose_env_name ["base", "analysis"] (some "analysis") []
        = some (Except.error (railErrorMessage
            ("Supplied environment name " ++ "analysis" ++ " already exists"))) ∧
      (name_then_create ["base", "analysis"] (some "analysis") [] "conda"
          "lockfiles/conda-linux-64.lock" false true false).1 = [] :=
  (env_name_no_collision ["base", "analysis"] (some "analysis") [] "conda"
      "lockfiles/conda-linux-64.lock" false true false).2.1 "analysis" rfl (by decide)

/-- Claim C6: every value returned by `request_input` satisfies the full
acceptance condition: with `allow_any = false` it is a member of the supplied
options, with `allow_any = true` it is non-empty, and it passes the validator
whenever one is supplied. -/
theorem request_input_acceptance (isatty : Bool) (inputs : List String) (prompt : String)
    (options : List String) (allow_any : Bool) (validator : Option (String → Bool))
    (result : String)
    (h : request_input isatty inputs prompt options allow_any validator
        = Except.ok (some result)) :
    (allow_any = false → result ∈ options) ∧
    (allow_any = true → result ≠ "") ∧
    (∀ f, validator = some f → f result = true) := by
  cases isatty with
  | false => simp [request_input] at h
  | true =>
    simp only [request_input, Bool.not_true, Bool.false_eq_true, if_false, Except.ok.injEq] at h
    obtain ⟨hdef, hval⟩ :=
      request_input_loop_sound inputs options allow_any validator result h
    refine ⟨?_, ?_, hval⟩
    · rintro rfl
      simp only [Bool.false_and, Bool.not_false, Bool.true_and, Bool.false_or] at hdef
      simpa [List.contains, List.elem_iff] using hdef
    · rintro rfl
      simp only [Bool.true_and, Bool.not_true, Bool.false_and, Bool.or_false] at hdef
      simpa using hdef

/-- Claim C6 witness: after one rejected line, the accepted value is a member of
the supplied options. -/
theorem request_input_acceptance_witness : "pick" ∈ ["pick"] :=
  (request_input_acceptance true ["", "pick"] "Choose one:" ["pick"] false none "pick"
    rfl).1 rfl

/-- Claim C10: with `allow_any = false` and an empty option list no input line
is ever accepted, whatever the validator, so the prompt loop rejects every line
of any input stream and the function never returns; conversely any returned
value requires `allow_any = true` or a non-empty option list. -/
theorem request_input_empty_options_no_return :
    (∀ (inputs : List String) (validator : Option (String → Bool)),
      request_input_loop inputs [] false validator = none) ∧
    (∀ (inputs options : List String) (allow_any : Bool)
        (validator : Option (String → Bool)) (result : String),
      request_input_loop inputs options allow_any validator = some result →
      allow_any = true ∨ options ≠ []) := by
  refine ⟨fun inputs validator => request_input_loop_nil_options inputs validator, ?_⟩
  intro inputs options allow_any validator result h
  cases allow_any with
  | true => exact Or.inl rfl
  | false =>
    cases options with
    | nil => rw [request_input_loop_nil_options] at h; simp at h
    | cons o os => exact Or.inr (by simp)

/-- Claim C10 witness: a value is returned on a non-empty option list, which is
consistent with termination requiring `allow_any` or non-empty options. -/
theorem request_input_empty_options_no_return_witness :
    false = true ∨ (["y"] : List String) ≠ [] :=
  request_input_empty_options_no_return.2 ["y"] ["y"] false none "y" rfl

/-- Claim C7 counterexample: for the reachable failing execution with exit code
1 and neither stream captured (any non-captured command failure), the raised
message contains neither the stdout placeholder nor the stderr placeholder, so
the claim that placeholder text is substituted for every non-captured stream is
false as stated. -/
theorem run_cmd_error_message_counterexample :
    runCmd { returncode := 1, stdout := none, stderr := none }
        = Except.error (railErrorMessage
            (build_cmd_error_message { returncode := 1, stdout := none, stderr := none }), 1) ∧
      strContains (build_cmd_error_message { returncode := 1, stdout := none, stderr := none })
          "No output from command" = false ∧
      strContains (build_cmd_error_message { returncode := 1, stdout := none, stderr := none })
          "No error from command" = false :=
  ⟨rfl, by decide, by decide⟩

/-- Claim C7 amended: for every non-zero exit code the raised error carries the
constructed message and exit code; when at least one stream was captured the
message embeds the trimmed stdout and trimmed stderr with placeholder text
substituted for a stream that was not captured; when neither stream was
captured the message omits the output section entirely; and the minimum
machine-resource hint is appended if and only if the exit code is not 127. -/
theorem run_cmd_error_message_spec (rc : Int) (stdout stderr : Option String)
    (hrc : rc ≠ 0) :
    runCmd { returncode := rc, stdout := stdout, stderr := stderr }
        = Except.error (railErrorMessage
            (build_cmd_error_message { returncode := rc, stdout := stdout, stderr := stderr }),
            rc) ∧
    (∀ so se, stdout = some so → stderr = some se →
      build_cmd_error_message { returncode := rc, stdout := stdout, stderr := stderr }
        = "CLI command failed" ++ ": " ++ pyStrip so ++ "\n" ++ pyStrip se
            ++ specs_hint_suffix rc) ∧
    (∀ se, stdout = none → stderr = some se →
      build_cmd_error_message { returncode := rc, stdout := stdout, stderr := stderr }
        = "CLI command failed" ++ ": " ++ "No output from command" ++ "\n" ++ pyStrip se
            ++ specs_hint_suffix rc) ∧
    (∀ so, stdout = some so → stderr = none →
      build_cmd_error_message { returncode := rc, stdout := stdout, stderr := stderr }
        = "CLI command failed" ++ ": " ++ pyStrip so ++ "\n" ++ "No error from command"
            ++ specs_hint_suffix rc) ∧
    (stdout = none → stderr = none →
      build_cmd_error_message { returncode := rc, stdout := stdout, stderr := stderr }
        = "CLI command failed" ++ specs_hint_suffix rc) ∧
    (specs_hint_suffix rc = "" ↔ rc = 127) := by
  have hbne : (rc != 0) = true := by simpa using hrc
  refine ⟨by simp [runCmd, hbne], ?_, ?_, ?_, ?_, ?_⟩
  · rintro so se rfl rfl
    cases h127 : (rc != 127) <;>
      simp [build_cmd_error_message, specs_hint_suffix, h127, ERROR_SPECS_MESSAGE,
        String.append_assoc]
  · rintro se rfl rfl
    cases h127 : (rc != 127) <;>
      simp [build_cmd_error_message, specs_hint_suffix, h127, ERROR_SPECS_MESSAGE,
        String.append_assoc]
  · rintro so rfl rfl
    cases h127 : (rc != 127) <;>
      simp [build_cmd_error_message, specs_hint_suffix, h127, ERROR_SPECS_MESSAGE,
        String.append_assoc]
  · rintro rfl rfl
    cases h127 : (rc != 127) <;>
      simp [build_cmd_error_message, specs_hint_suffix, h127, ERROR_SPECS_MESSAGE,
        String.append_assoc]
  · constructor
    · intro hsuf
      by_contra hne
      have hb : (rc != 127) = true := by simpa using hne
      simp only [specs_hint_suffix, hb, if_true] at hsuf
      exact absurd hsuf (by decide)
    · rintro rfl
      simp [specs_hint_suffix]

/-- Claim C7 witness: a captured failing command with exit code 1 embeds both
trimmed streams and the machine-resource hint. -/
theorem run_cmd_error_message_spec_witness :
    build_cmd_error_message { returncode := 1, stdout := some " out \n", stderr := some "err" }
      = "CLI command failed" ++ ": " ++ pyStrip " out \n" ++ "\n" ++ pyStrip "err"
          ++ specs_hint_suffix 1 :=
  (run_cmd_error_message_spec 1 (some " out \n") (some "err")
      (by decide)).2.1 " out \n" "err" rfl rfl

end RailInstall
